import Mathlib

/-!
Shallow embedding of the nodeshot link model
(`src/nodeshot/networking/links/models/link.py`) and of the topology
reconciliation engine described by the specification, together with
theorems settling the claims about them.

Conventions of the embedding:
* Django model instances are plain structures; the database is an
  explicit `Db` value threaded through the operations.
* Python exceptions become `Except PyError`; the `PyError` constructor
  mirrors the Python exception class and its arguments.
* Machine-level concerns (ORM plumbing, GIS geometry types) are reduced
  to the data actually used by the code: a `line` is the pair of node
  points, primary keys are `Nat`.
-/

set_option maxHeartbeats 1000000

/-- Link status choices (planned / active / disconnected).  Modelled from the
spec: the `choices` module of the repository is not under `src/`; section 3 of
the spec fixes the three statuses. -/
inductive LinkStatus
  | planned
  | active
  | disconnected
deriving DecidableEq, Repr

/-- Link type choices (radio / ethernet / virtual).  Modelled from the spec:
the `choices` module of the repository is not under `src/`; section 3 of the
spec fixes the three types. -/
inductive LinkType
  | radio
  | ethernet
  | virtual
deriving DecidableEq, Repr

/-- Interface (endpoint) physical types.  Modelled from the spec: the
`INTERFACE_TYPES` choices of `nodeshot.networking.net` are not under `src/`;
section 3 of the spec lists wireless / ethernet / other. -/
inductive InterfaceType
  | wireless
  | ethernet
  | other
deriving DecidableEq, Repr

/-- A geographic point (the `Node.point` geometry).  Coordinates are opaque
integers: no claim computes with them. -/
structure Point where
  x : Int
  y : Int
deriving DecidableEq, Repr

/-- A layer record (only the fields `Link.save` reads). -/
structure Layer where
  id : Nat
  slug : String
deriving DecidableEq, Repr

/-- A node record (only the fields `Link.save` reads). -/
structure Node where
  id : Nat
  name : String
  slug : String
  point : Point
  layer : Layer
deriving DecidableEq, Repr

/-- An interface record (`nodeshot.networking.net.models.Interface`): primary
key, owning node, physical type and MAC address. -/
structure Interface where
  id : Nat
  node : Node
  type : InterfaceType
  mac : String
deriving DecidableEq, Repr

/-- An IP address record (`nodeshot.networking.net.models.Ip`): the address
string and the interface it belongs to. -/
structure Ip where
  address : String
  interface : Interface
deriving DecidableEq, Repr

/-- The hstore `data` dictionary of a link, restricted to the keys the code
reads and writes.  A missing key is `none`. -/
structure LinkData where
  node_a_name : Option String := none
  node_b_name : Option String := none
  node_a_slug : Option String := none
  node_b_slug : Option String := none
  interface_a_mac : Option String := none
  interface_b_mac : Option String := none
  layer_slug : Option String := none
deriving DecidableEq, Repr

/-- The `Link` model.  Field defaults mirror the Django field defaults used
when `Link(...)` is constructed: `type` defaults to radio
(`default=LINK_TYPES.get('radio')`), `status` to planned, every other
modelled field to null/empty.  `topology` is the primary key of the owning
topology source, `line` the two endpoints of the drawn linestring. -/
structure Link where
  id : Option Nat := none
  type : Option LinkType := some LinkType.radio
  interface_a : Option Interface := none
  interface_b : Option Interface := none
  topology : Option Nat := none
  node_a : Option Node := none
  node_b : Option Node := none
  layer : Option Layer := none
  line : Option (Point × Point) := none
  status : LinkStatus := LinkStatus.planned
  metric_value : Option Int := none
  dbm : Option Int := none
  noise : Option Int := none
  data : LinkData := {}
deriving DecidableEq, Repr

/-- The Python exceptions raised by the embedded code, with the data each one
carries: `ValueError` and Django `ValidationError` / `DoesNotExist` /
`AttributeError` carry a message; `LinkDataNotFound` wraps the message of the
`DoesNotExist` it is constructed from; `LinkNotFound` is raised as
`LinkNotFound(msg, interface_a=a, interface_b=b)` and so carries the resolved
interface pair. -/
inductive PyError
  | valueError (msg : String)
  | validationError (msg : String)
  | doesNotExist (msg : String)
  | attributeError (msg : String)
  | linkDataNotFound (msg : String)
  | linkNotFound (msg : String) (interface_a interface_b : Interface)
deriving DecidableEq, Repr

/-- The database visible to the link code: the interface table, the IP table,
the link table, and the next primary key handed out on insert. -/
structure Db where
  interfaces : List Interface
  ips : List Ip
  links : List Link
  nextId : Nat
deriving DecidableEq, Repr

/-- Decimal digit test on a character. -/
def isDigitChar (c : Char) : Bool :=
  48 ≤ c.toNat && c.toNat ≤ 57

/-- Hexadecimal digit test on a character. -/
def isHexDigitChar (c : Char) : Bool :=
  isDigitChar c || (97 ≤ c.toNat && c.toNat ≤ 102) || (65 ≤ c.toNat && c.toNat ≤ 70)

/-- Split a character list on a separator character. -/
def splitOnChar (sep : Char) : List Char → List (List Char)
  | [] => [[]]
  | c :: cs =>
    match splitOnChar sep cs, decide (c = sep) with
    | r, true => [] :: r
    | [], false => [[c]]
    | g :: gs, false => (c :: g) :: gs

/-- Parse a nonempty list of decimal digits into a number. -/
def parseDecimal (p : List Char) : Option Nat :=
  if p.isEmpty then none
  else if p.all isDigitChar then some (p.foldl (fun acc c => acc * 10 + (c.toNat - 48)) 0)
  else none

/-- Modelled from the spec: `netaddr.valid_ipv4` is an external library not
under `src/`; section 4.1 of the spec only requires recognising a valid IPv4
address.  Simplified grammar: four dot-separated decimal components of at
most three digits, each at most 255. -/
def valid_ipv4 (s : String) : Bool :=
  let parts := splitOnChar '.' s.data
  parts.length == 4 && parts.all (fun p =>
    match parseDecimal p with
    | some n => n ≤ 255 && p.length ≤ 3
    | none => false)

/-- Modelled from the spec: `netaddr.valid_ipv6` is an external library not
under `src/`.  Simplified grammar: eight colon-separated groups of one to
four hexadecimal digits (no `::` compression). -/
def valid_ipv6 (s : String) : Bool :=
  let parts := splitOnChar ':' s.data
  parts.length == 8 && parts.all (fun p =>
    !p.isEmpty && p.length ≤ 4 && p.all isHexDigitChar)

/-- Modelled from the spec: `netaddr.valid_mac` is an external library not
under `src/`.  Simplified grammar: six colon-separated groups of exactly two
hexadecimal digits. -/
def valid_mac (s : String) : Bool :=
  let parts := splitOnChar ':' s.data
  parts.length == 6 && parts.all (fun p =>
    p.length == 2 && p.all isHexDigitChar)

/-- Custom validation of `Link.clean`, transcribed check for check:
1. `interface_a` and `interface_b` mandatory except for planned links;
2. a link cannot have the same from and to interface (compared by primary
   key, `interface_a_id == interface_b_id`, or by object equality);
3. planned links must have `node_a` and `node_b` filled in;
4. `dbm` and `noise` only for radio links;
5. the types of `interface_a` and `interface_b` must match.
The Python code nests checks 1 and 2 under `status != planned`; the chain
below fires exactly the same check on exactly the same inputs. -/
def Link.clean (l : Link) : Except PyError Unit :=
  if l.status ≠ LinkStatus.planned ∧ (l.interface_a = none ∨ l.interface_b = none) then
    Except.error (PyError.validationError "fields from interface and to interface are mandatory in this case")
  else if l.status ≠ LinkStatus.planned ∧
      (l.interface_a.map Interface.id = l.interface_b.map Interface.id ∨ l.interface_a = l.interface_b) then
    Except.error (PyError.validationError "link cannot have same from interface and to interface")
  else if l.status = LinkStatus.planned ∧ (l.node_a = none ∨ l.node_b = none) then
    Except.error (PyError.validationError "fields from node and to node are mandatory for planned links")
  else if l.type ≠ some LinkType.radio ∧ (l.dbm ≠ none ∨ l.noise ≠ none) then
    Except.error (PyError.validationError "Only links of type radio can contain dbm and noise information")
  else
    match l.interface_a, l.interface_b with
    | some a, some b =>
      if a.type ≠ b.type then
        Except.error (PyError.validationError "link cannot be between interfaces of different types")
      else Except.ok ()
    | _, _ => Except.ok ()

/-- First step of `Link.save`: `if not self.type:` infer the link type from
`interface_a.type` (wireless to radio, ethernet to ethernet, else virtual).
With `type` unset and `interface_a` null, Python evaluates
`self.interface_a.type` on `None` and raises `AttributeError`. -/
def inferLinkType (l : Link) : Except PyError Link :=
  match l.type with
  | some _ => Except.ok l
  | none =>
    match l.interface_a with
    | none => Except.error (PyError.attributeError "NoneType object has no attribute type")
    | some ia =>
      if ia.type = InterfaceType.wireless then Except.ok { l with type := some LinkType.radio }
      else if ia.type = InterfaceType.ethernet then Except.ok { l with type := some LinkType.ethernet }
      else Except.ok { l with type := some LinkType.virtual }

/-- Second step of `Link.save`: re-fetch `interface_a` and `interface_b` from
the database by primary key (`Interface.objects.get(pk=...)`), which raises
`DoesNotExist` when the key is missing. -/
def refreshIfaces (db : Db) (l : Link) : Except PyError Link :=
  match l.interface_a with
  | none =>
    match l.interface_b with
    | none => Except.ok l
    | some ib =>
      match db.interfaces.find? (fun x => decide (x.id = ib.id)) with
      | none => Except.error (PyError.doesNotExist "Interface matching query does not exist.")
      | some fb => Except.ok { l with interface_b := some fb }
  | some ia =>
    match db.interfaces.find? (fun x => decide (x.id = ia.id)) with
    | none => Except.error (PyError.doesNotExist "Interface matching query does not exist.")
    | some fa =>
      match l.interface_b with
      | none => Except.ok { l with interface_a := some fa }
      | some ib =>
        match db.interfaces.find? (fun x => decide (x.id = ib.id)) with
        | none => Except.error (PyError.doesNotExist "Interface matching query does not exist.")
        | some fb => Except.ok { l with interface_a := some fa, interface_b := some fb }

/-- First half of the third step of `Link.save`: fill `node_a` from
`interface_a` when null. -/
def fillNodeA (l : Link) : Link :=
  match l.node_a, l.interface_a with
  | none, some ia => { l with node_a := some ia.node }
  | _, _ => l

/-- Second half of the third step of `Link.save`: fill `node_b` from
`interface_b` when null. -/
def fillNodeB (l : Link) : Link :=
  match l.node_b, l.interface_b with
  | none, some ib => { l with node_b := some ib.node }
  | _, _ => l

/-- Third step of `Link.save`: fill `node_a` / `node_b` from the interfaces
when null (the two `if` statements run in sequence). -/
def fillNodes (l : Link) : Link :=
  fillNodeB (fillNodeA l)

/-- Fourth step of `Link.save`: fill `layer` from `node_a.layer` when null
(`AttributeError` when `node_a` is also null). -/
def fillLayer (l : Link) : Except PyError Link :=
  match l.layer with
  | some _ => Except.ok l
  | none =>
    match l.node_a with
    | none => Except.error (PyError.attributeError "NoneType object has no attribute layer")
    | some na => Except.ok { l with layer := some na.layer }

/-- Fifth step of `Link.save`: `if not self.line:` draw the linestring
between `node_a.point` and `node_b.point`. -/
def drawLine (l : Link) : Except PyError Link :=
  match l.line with
  | some _ => Except.ok l
  | none =>
    match l.node_a, l.node_b with
    | some na, some nb => Except.ok { l with line := some (na.point, nb.point) }
    | _, _ => Except.error (PyError.attributeError "NoneType object has no attribute point")

/-- Sixth step of `Link.save`: when the `node_a_name` key is absent, cache
both node names into the data dictionary (the code checks `node_a_name`
only). -/
def fillNames (l : Link) : Except PyError Link :=
  if l.data.node_a_name = none then
    match l.node_a, l.node_b with
    | some na, some nb =>
      Except.ok { l with data := { l.data with node_a_name := some na.name, node_b_name := some nb.name } }
    | _, _ => Except.error (PyError.attributeError "NoneType object has no attribute name")
  else Except.ok l

/-- Seventh step of `Link.save`: when either slug key is absent, cache both
node slugs. -/
def fillSlugs (l : Link) : Except PyError Link :=
  if l.data.node_a_slug = none ∨ l.data.node_b_slug = none then
    match l.node_a, l.node_b with
    | some na, some nb =>
      Except.ok { l with data := { l.data with node_a_slug := some na.slug, node_b_slug := some nb.slug } }
    | _, _ => Except.error (PyError.attributeError "NoneType object has no attribute slug")
  else Except.ok l

/-- First half of the eighth step of `Link.save`: cache the MAC of
`interface_a` when present and its key absent. -/
def fillMacA (l : Link) : Link :=
  match l.interface_a, l.data.interface_a_mac with
  | some ia, none => { l with data := { l.data with interface_a_mac := some ia.mac } }
  | _, _ => l

/-- Second half of the eighth step of `Link.save`: cache the MAC of
`interface_b` when present and its key absent. -/
def fillMacB (l : Link) : Link :=
  match l.interface_b, l.data.interface_b_mac with
  | some ib, none => { l with data := { l.data with interface_b_mac := some ib.mac } }
  | _, _ => l

/-- Eighth step of `Link.save`: cache each interface MAC when the interface
is present and its key absent (the two `if` statements run in sequence). -/
def fillMacs (l : Link) : Link :=
  fillMacB (fillMacA l)

/-- Ninth step of `Link.save`: always refresh `layer_slug` to the current
`layer.slug` (`AttributeError` when `layer` is null). -/
def refreshLayerSlug (l : Link) : Except PyError Link :=
  match l.layer with
  | none => Except.error (PyError.attributeError "NoneType object has no attribute slug")
  | some ly =>
    if l.data.layer_slug ≠ some ly.slug then
      Except.ok { l with data := { l.data with layer_slug := some ly.slug } }
    else Except.ok l

/-- Final step of `Link.save`: the persistence of `super().save()`: insert
with a fresh primary key when `id` is null, otherwise update the row with
that key. -/
def persistLink (db : Db) (l : Link) : Db × Link :=
  match l.id with
  | none =>
    let saved := { l with id := some db.nextId }
    ({ db with links := db.links ++ [saved], nextId := db.nextId + 1 }, saved)
  | some i =>
    ({ db with links := db.links.map (fun x => if x.id = some i then l else x) }, l)

/-- Custom save of the `Link` model, the composition of the steps above in
source order.  `save` performs no validation: `Link.clean` is only run when a
caller invokes `full_clean` explicitly. -/
def Link.save (db : Db) (l : Link) : Except PyError (Db × Link) := do
  let l ← inferLinkType l
  let l ← refreshIfaces db l
  let l := fillNodes l
  let l ← fillLayer l
  let l ← drawLine l
  let l ← fillNames l
  let l ← fillSlugs l
  let l := fillMacs l
  let l ← refreshLayerSlug l
  Except.ok (persistLink db l)

/-- The Django filter `Q(interface_a=a, interface_b=b) | Q(interface_a=b,
interface_b=a)` of `find_from_tuple`: foreign keys are compared by primary
key, in either orientation. -/
def linkMatches (ia ib : Interface) (l : Link) : Bool :=
  decide ((l.interface_a.map Interface.id = some ia.id ∧ l.interface_b.map Interface.id = some ib.id) ∨
    (l.interface_a.map Interface.id = some ib.id ∧ l.interface_b.map Interface.id = some ia.id))

/-- Address resolution phase of `find_from_tuple`: dispatch on the address
kind (both IPv4, both IPv6, or both MAC), then look both addresses up in the
IP table (IP kinds) or the interface table (MAC kind).  A failed lookup
raises `LinkDataNotFound(e)` where `e` is the Django `DoesNotExist`; a pair
matching no kind raises `ValueError`. -/
def resolveTuple (db : Db) (a b : String) : Except PyError (Interface × Interface) :=
  if (valid_ipv4 a && valid_ipv4 b) || (valid_ipv6 a && valid_ipv6 b) then
    match db.ips.find? (fun r => decide (r.address = a)) with
    | none => Except.error (PyError.linkDataNotFound "Ip matching query does not exist.")
    | some ra =>
      match db.ips.find? (fun r => decide (r.address = b)) with
      | none => Except.error (PyError.linkDataNotFound "Ip matching query does not exist.")
      | some rb => Except.ok (ra.interface, rb.interface)
  else if valid_mac a && valid_mac b then
    match db.interfaces.find? (fun x => decide (x.mac = a)) with
    | none => Except.error (PyError.linkDataNotFound "Interface matching query does not exist.")
    | some xa =>
      match db.interfaces.find? (fun x => decide (x.mac = b)) with
      | none => Except.error (PyError.linkDataNotFound "Interface matching query does not exist.")
      | some xb => Except.ok (xa, xb)
  else
    Except.error (PyError.valueError "Expecting valid ipv4, ipv6 or mac address")

/-- `Link.find_from_tuple`: extract the two elements (raising `ValueError`
on a too-short tuple), resolve them to interfaces, then return the first
link matching the pair in either orientation, raising `LinkNotFound` with
the resolved pair when none matches. -/
def Link.find_from_tuple (db : Db) (link : List String) : Except PyError Link :=
  match link.get? 0, link.get? 1 with
  | some a, some b =>
    match resolveTuple db a b with
    | Except.error e => Except.error e
    | Except.ok (ia, ib) =>
      match db.links.find? (linkMatches ia ib) with
      | some l => Except.ok l
      | none => Except.error (PyError.linkNotFound "Link matching query does not exist" ia ib)
  | _, _ => Except.error (PyError.valueError "Expecting tuple with source and destination")

/-- `Link.find_or_create`: as `find_from_tuple`, but on `LinkNotFound` build
a link from the interfaces carried by the exception with status active (the
remaining fields take the Django field defaults, in particular `type` radio
and no topology), run `full_clean`, save it and return it. -/
def Link.find_or_create (db : Db) (pair : List String) : Except PyError (Db × Link) :=
  match Link.find_from_tuple db pair with
  | Except.ok l => Except.ok (db, l)
  | Except.error (PyError.linkNotFound _ ia ib) =>
    let link : Link := { interface_a := some ia, interface_b := some ib, status := LinkStatus.active }
    match link.clean with
    | Except.error e => Except.error e
    | Except.ok _ => Link.save db link
  | Except.error e => Except.error e

deriving instance DecidableEq for Except

/-- Helper: a bind over `Except` returns ok exactly when both stages do. -/
theorem except_bind_ok {ε α β : Type} {x : Except ε α} {f : α → Except ε β} {c : β} :
    (x >>= f) = Except.ok c ↔ ∃ b, x = Except.ok b ∧ f b = Except.ok c := by
  cases x <;> simp [Bind.bind, Except.bind]

/-- Helper: a successful find on the left part survives appending on the right. -/
theorem find?_append_some {α : Type} {l₁ l₂ : List α} {p : α → Bool} {a : α}
    (h : l₁.find? p = some a) : (l₁ ++ l₂).find? p = some a := by
  rw [List.find?_append, h]; rfl

/-- Helper: a failed find on the left part defers to the right part. -/
theorem find?_append_none {α : Type} {l₁ l₂ : List α} {p : α → Bool}
    (h : l₁.find? p = none) : (l₁ ++ l₂).find? p = l₂.find? p := by
  rw [List.find?_append, h]; rfl

/-- Helper: `find?` only looks at the pointwise value of its predicate. -/
theorem find?_congr_pred {α : Type} {p q : α → Bool} (h : ∀ a, p a = q a) :
    ∀ l : List α, l.find? p = l.find? q := by
  intro l
  induction l with
  | nil => rfl
  | cons x xs ih => simp only [List.find?_cons, h x]; rw [ih]

/-!
Topology reconciliation engine.

Modelled from the spec: the repository's `Topology` model (`topology.py`,
with its `update` method) is not under `src/`; only its tests are.  The
definitions below follow section 4.6 of the spec word for word:

1.  (fetching/decoding is outside this model: `update` receives the decoded
    edge list of the source document);
2.  for each edge `(a, b, weight)` of the graph, resolve-or-create a link
    scoped to the source (matching the unordered endpoint pair within this
    source, creating an active link on a miss), set its status to active and
    its metric value to the weight, persist it, and track the touched ids;
3.  every link of the source that is active and was not touched in step 2 is
    transitioned to disconnected.

Address resolution is abstracted: edge endpoints are already interface ids
(resolution is deterministic, so this does not affect reconciliation).
-/

/-- A link as the reconciler sees it: id, endpoint pair, owning topology
source, status, metric value. -/
structure RLink where
  id : Nat
  interface_a : Nat
  interface_b : Nat
  topology : Option Nat
  status : LinkStatus
  metric_value : Int
deriving DecidableEq, Repr

/-- One edge of the decoded topology document. -/
structure Edge where
  source : Nat
  target : Nat
  weight : Int
deriving DecidableEq, Repr

/-- The reconciler's view of the link store: the stored links and the next
primary key handed out on insert. -/
structure RState where
  links : List RLink
  nextId : Nat
deriving DecidableEq, Repr

/-- Lookup predicate of the spec: a link of the given source matching the
unordered pair in either orientation. -/
def matchesPair (src a b : Nat) (l : RLink) : Bool :=
  decide (l.topology = some src ∧
    ((l.interface_a = a ∧ l.interface_b = b) ∨ (l.interface_a = b ∧ l.interface_b = a)))

/-- Find the first stored link of the source matching the unordered pair. -/
def findScoped (links : List RLink) (src a b : Nat) : Option RLink :=
  links.find? (matchesPair src a b)

/-- Persist status active and the given metric value on the link with the
given id. -/
def setActive (w : Int) (i : Nat) (links : List RLink) : List RLink :=
  links.map (fun x => if x.id = i then { x with status := LinkStatus.active, metric_value := w } else x)

/-- Step 2 of `update` for one edge: find-or-create the link for the edge
scoped to the source, set status active and the metric value, persist, and
record the touched id. -/
def touchEdge (src : Nat) (acc : RState × List Nat) (e : Edge) : RState × List Nat :=
  match findScoped acc.1.links src e.source e.target with
  | some l => ({ acc.1 with links := setActive e.weight l.id acc.1.links }, l.id :: acc.2)
  | none =>
    let created : RLink := ⟨acc.1.nextId, e.source, e.target, some src, LinkStatus.active, e.weight⟩
    (⟨acc.1.links ++ [created], acc.1.nextId + 1⟩, acc.1.nextId :: acc.2)

/-- Step 2 of `update`: process every edge of the document in order,
tracking the set of touched link ids. -/
def step2 (src : Nat) (st : RState) (edges : List Edge) : RState × List Nat :=
  edges.foldl (touchEdge src) (st, [])

/-- Step 3 of `update`: every link of the source that is still active but
was not touched is transitioned to disconnected. -/
def disconnectUntouched (src : Nat) (touched : List Nat) (st : RState) : RState :=
  { st with links := st.links.map (fun l =>
      if l.topology = some src ∧ l.status = LinkStatus.active ∧ l.id ∉ touched then
        { l with status := LinkStatus.disconnected }
      else l) }

/-- `update(source)` on an already decoded document: step 2 then step 3. -/
def topologyUpdate (src : Nat) (edges : List Edge) (st : RState) : RState :=
  let r := step2 src st edges
  disconnectUntouched src r.2 r.1

/-- The identity-relevant part of a stored reconciler link: everything the
endpoint-pair lookup reads, plus the primary key.  Reconciliation only ever
changes status and metric value of stored links, so these keys are stable. -/
structure RKey where
  id : Nat
  interface_a : Nat
  interface_b : Nat
  topology : Option Nat
deriving DecidableEq, Repr

/-- Key of a stored link. -/
def RLink.key (l : RLink) : RKey := ⟨l.id, l.interface_a, l.interface_b, l.topology⟩

/-- Keys of a stored link list. -/
def keysOf (links : List RLink) : List RKey := links.map RLink.key

/-- The lookup predicate of `findScoped`, expressed on keys. -/
def matchesKey (src a b : Nat) (k : RKey) : Bool :=
  decide (k.topology = some src ∧
    ((k.interface_a = a ∧ k.interface_b = b) ∨ (k.interface_a = b ∧ k.interface_b = a)))

/-- Result id of the scoped lookup, as a function of the keys only. -/
def foundId (ks : List RKey) (src a b : Nat) : Option Nat :=
  (ks.find? (matchesKey src a b)).map RKey.id

/-- The scoped lookup is determined by the keys of the store. -/
theorem findScoped_key (links : List RLink) (src a b : Nat) :
    (keysOf links).find? (matchesKey src a b) = (findScoped links src a b).map RLink.key := by
  rw [keysOf, List.find?_map]
  rfl

/-- Setting status and metric of a stored link preserves all keys. -/
theorem keysOf_setActive (w : Int) (i : Nat) (links : List RLink) :
    keysOf (setActive w i links) = keysOf links := by
  unfold keysOf setActive
  rw [List.map_map]
  apply List.map_congr_left
  intro x _
  by_cases hx : x.id = i <;> simp [RLink.key, hx]

/-- Step 3 preserves all keys. -/
theorem keysOf_disconnect (src : Nat) (t : List Nat) (st : RState) :
    keysOf (disconnectUntouched src t st).links = keysOf st.links := by
  unfold keysOf disconnectUntouched
  rw [List.map_map]
  apply List.map_congr_left
  intro x _
  by_cases hx : x.topology = some src ∧ x.status = LinkStatus.active ∧ x.id ∉ t <;>
    simp [RLink.key, hx]

/-- A successful scoped lookup survives any extension of the store. -/
theorem foundId_mono {ks : List RKey} {src a b : Nat} {i : Nat} (δ : List RKey)
    (h : foundId ks src a b = some i) : foundId (ks ++ δ) src a b = some i := by
  unfold foundId at h ⊢
  rcases Option.map_eq_some'.mp h with ⟨k, hk, hki⟩
  rw [find?_append_some hk]
  simpa using hki

/-- Processing one edge extends the keys of the store (by nothing on a find,
by the created link's key on a miss). -/
theorem keysOf_touchEdge (src : Nat) (acc : RState × List Nat) (e : Edge) :
    ∃ δ, keysOf (touchEdge src acc e).1.links = keysOf acc.1.links ++ δ := by
  unfold touchEdge
  cases h : findScoped acc.1.links src e.source e.target with
  | some l => exact ⟨[], by simp [keysOf_setActive]⟩
  | none =>
    refine ⟨[⟨acc.1.nextId, e.source, e.target, some src⟩], ?_⟩
    simp [keysOf, RLink.key]

/-- After one edge is processed, the scoped lookup for that edge succeeds,
and the id it yields is the id that was just recorded as touched. -/
theorem touchEdge_found (src : Nat) (acc : RState × List Nat) (e : Edge) :
    ∃ i, foundId (keysOf (touchEdge src acc e).1.links) src e.source e.target = some i ∧
      (touchEdge src acc e).2 = i :: acc.2 := by
  unfold touchEdge
  cases h : findScoped acc.1.links src e.source e.target with
  | some l =>
    refine ⟨l.id, ?_, rfl⟩
    have hk : (keysOf acc.1.links).find? (matchesKey src e.source e.target) = some l.key := by
      rw [findScoped_key, h]; rfl
    simp only [keysOf_setActive]
    unfold foundId
    rw [hk]
    rfl
  | none =>
    refine ⟨acc.1.nextId, ?_, rfl⟩
    have hk : (keysOf acc.1.links).find? (matchesKey src e.source e.target) = none := by
      rw [findScoped_key, h]; rfl
    unfold foundId
    have hkeys : keysOf (acc.1.links ++
        [⟨acc.1.nextId, e.source, e.target, some src, LinkStatus.active, e.weight⟩]) =
        keysOf acc.1.links ++ [⟨acc.1.nextId, e.source, e.target, some src⟩] := by
      simp [keysOf, RLink.key]
    simp only [hkeys]
    rw [find?_append_none hk]
    simp [matchesKey]

/-- Invariant of step 2 over the edge fold: the keys of the store only grow,
every processed edge has a successful scoped lookup in the final store, and
every touched id is the lookup result of some processed edge in the final
store (beyond the ids already in the accumulator). -/
theorem foldl_touch_spec (src : Nat) (edges : List Edge) (acc : RState × List Nat) :
    (∃ δ, keysOf (edges.foldl (touchEdge src) acc).1.links = keysOf acc.1.links ++ δ) ∧
    (∀ e ∈ edges, ∃ i,
      foundId (keysOf (edges.foldl (touchEdge src) acc).1.links) src e.source e.target = some i) ∧
    (∀ i ∈ (edges.foldl (touchEdge src) acc).2, i ∈ acc.2 ∨ ∃ e ∈ edges,
      foundId (keysOf (edges.foldl (touchEdge src) acc).1.links) src e.source e.target = some i) := by
  induction edges generalizing acc with
  | nil => exact ⟨⟨[], by simp⟩, by simp, by simp⟩
  | cons e es ih =>
    obtain ⟨⟨δ₁, hδ₁⟩, hcov, htch⟩ := ih (touchEdge src acc e)
    obtain ⟨δ₀, hδ₀⟩ := keysOf_touchEdge src acc e
    obtain ⟨i₀, hi₀, hrec⟩ := touchEdge_found src acc e
    have hfold : (e :: es).foldl (touchEdge src) acc = es.foldl (touchEdge src) (touchEdge src acc e) := rfl
    rw [hfold]
    refine ⟨⟨δ₀ ++ δ₁, by rw [hδ₁, hδ₀, List.append_assoc]⟩, ?_, ?_⟩
    · intro e' he'
      rcases List.mem_cons.mp he' with rfl | he'
      · exact ⟨i₀, by rw [hδ₁]; exact foundId_mono δ₁ hi₀⟩
      · exact hcov e' he'
    · intro i hi
      rcases htch i hi with hin | ⟨e', he', hf⟩
      · rw [hrec] at hin
        rcases List.mem_cons.mp hin with rfl | hin
        · exact Or.inr ⟨e, List.mem_cons_self e es, by rw [hδ₁]; exact foundId_mono δ₁ hi₀⟩
        · exact Or.inl hin
      · exact Or.inr ⟨e', List.mem_cons_of_mem e he', hf⟩

/-- Status tracking for the second run of `update`: each stored link has the
key of the corresponding link of the reference store, and its status is
either unchanged or was set to active with its id recorded as touched. -/
def Stat2 (ref : List RLink) (t : List Nat) (links : List RLink) : Prop :=
  List.Forall₂ (fun x y => x.key = y.key ∧
    (x.status = y.status ∨ (x.status = LinkStatus.active ∧ x.id ∈ t))) links ref

/-- The status tracking is monotone in the touched set. -/
theorem Stat2.mono {ref : List RLink} {t t' : List Nat} {links : List RLink}
    (hsub : ∀ i ∈ t, i ∈ t') (h : Stat2 ref t links) : Stat2 ref t' links := by
  refine List.Forall₂.imp ?_ h
  rintro x y ⟨hk, hs | ⟨hs, hi⟩⟩
  · exact ⟨hk, Or.inl hs⟩
  · exact ⟨hk, Or.inr ⟨hs, hsub _ hi⟩⟩

/-- Setting a touched link active preserves the status tracking. -/
theorem stat2_setActive {ref : List RLink} {t : List Nat} {links : List RLink}
    (w : Int) (i : Nat) (hi : i ∈ t) (h : Stat2 ref t links) :
    Stat2 ref t (setActive w i links) := by
  rw [Stat2, setActive, List.forall₂_map_left_iff]
  refine List.Forall₂.imp ?_ h
  rintro x y ⟨hk, hs⟩
  by_cases hx : x.id = i
  · rw [if_pos hx]
    refine ⟨hk, Or.inr ⟨rfl, ?_⟩⟩
    show x.id ∈ t
    rw [hx]
    exact hi
  · rw [if_neg hx]
    exact ⟨hk, hs⟩

/-- On a store with the same keys as the reference store, a scoped lookup
that succeeds on the reference keys succeeds and yields the same id. -/
theorem findScoped_of_foundId {links ref : List RLink} {src a b i : Nat}
    (hk : keysOf links = keysOf ref)
    (hf : foundId (keysOf ref) src a b = some i) :
    ∃ l, findScoped links src a b = some l ∧ l.id = i := by
  rw [← hk] at hf
  unfold foundId at hf
  rw [findScoped_key] at hf
  cases hl : findScoped links src a b with
  | none => rw [hl] at hf; simp at hf
  | some l =>
    rw [hl] at hf
    exact ⟨l, rfl, by simpa [RLink.key] using hf⟩

/-- Invariant of step 2 when re-run over a store that already covers every
edge: the keys never change (no link is created), touched ids only grow,
every edge records its reference lookup id as touched, and statuses are
only ever set to active on touched links. -/
theorem foldl_touch_run2 (src : Nat) (edges : List Edge) (ref : List RLink) :
    ∀ acc : RState × List Nat,
    keysOf acc.1.links = keysOf ref →
    (∀ e ∈ edges, ∃ i, foundId (keysOf ref) src e.source e.target = some i) →
    Stat2 ref acc.2 acc.1.links →
    keysOf (edges.foldl (touchEdge src) acc).1.links = keysOf ref ∧
    (∀ i ∈ acc.2, i ∈ (edges.foldl (touchEdge src) acc).2) ∧
    (∀ e ∈ edges, ∀ i, foundId (keysOf ref) src e.source e.target = some i →
      i ∈ (edges.foldl (touchEdge src) acc).2) ∧
    Stat2 ref (edges.foldl (touchEdge src) acc).2 (edges.foldl (touchEdge src) acc).1.links := by
  induction edges with
  | nil =>
    intro acc hk _ hstat
    exact ⟨hk, fun i hi => hi, by simp, hstat⟩
  | cons e es ih =>
    intro acc hk hcov hstat
    obtain ⟨i₀, hf₀⟩ := hcov e (List.mem_cons_self e es)
    obtain ⟨l, hl, hlid⟩ := findScoped_of_foundId hk hf₀
    have hstep : touchEdge src acc e =
        ({ acc.1 with links := setActive e.weight l.id acc.1.links }, l.id :: acc.2) := by
      unfold touchEdge
      rw [hl]
    have hk' : keysOf (setActive e.weight l.id acc.1.links) = keysOf ref := by
      rw [keysOf_setActive]
      exact hk
    have hstat' : Stat2 ref (l.id :: acc.2) (setActive e.weight l.id acc.1.links) :=
      stat2_setActive _ _ (List.mem_cons_self _ _)
        (Stat2.mono (fun i hi => List.mem_cons_of_mem _ hi) hstat)
    have hfold : (e :: es).foldl (touchEdge src) acc = es.foldl (touchEdge src) (touchEdge src acc e) := rfl
    rw [hfold, hstep]
    obtain ⟨rk, rsub, rcov, rstat⟩ :=
      ih ({ acc.1 with links := setActive e.weight l.id acc.1.links }, l.id :: acc.2)
        hk' (fun e' he' => hcov e' (List.mem_cons_of_mem e he')) hstat'
    refine ⟨rk, ?_, ?_, rstat⟩
    · intro i hi
      exact rsub _ (List.mem_cons_of_mem _ hi)
    · intro e' he' i hfi
      rcases List.mem_cons.mp he' with rfl | he'
      · have hii : i = l.id := ((Option.some.inj (hf₀ ▸ hfi)).symm).trans hlid.symm
        rw [hii]
        exact rsub _ (List.mem_cons_self _ _)
      · exact rcov e' he' i hfi

/-- After step 3, every link of the source that is still active was touched. -/
theorem disconnect_active_mem (src : Nat) (t : List Nat) (st : RState) :
    ∀ y ∈ (disconnectUntouched src t st).links,
      y.topology = some src → y.status = LinkStatus.active → y.id ∈ t := by
  intro y hy hsrc hact
  rcases List.mem_map.mp hy with ⟨x, _, hxy⟩
  by_cases hc : x.topology = some src ∧ x.status = LinkStatus.active ∧ x.id ∉ t
  · rw [if_pos hc] at hxy
    rw [← hxy] at hact
    exact absurd hact (by simp)
  · rw [if_neg hc] at hxy
    subst hxy
    by_contra hnt
    exact hc ⟨hsrc, hact, hnt⟩

/-- Pointwise strengthening of `Forall₂` with membership of both sides. -/
theorem forall₂_imp_mem {α β : Type} {R S : α → β → Prop} {l₁ : List α} {l₂ : List β}
    (h : List.Forall₂ R l₁ l₂)
    (himp : ∀ a b, a ∈ l₁ → b ∈ l₂ → R a b → S a b) : List.Forall₂ S l₁ l₂ := by
  induction h with
  | nil => exact List.Forall₂.nil
  | @cons a b as bs hR _ ih =>
    refine List.Forall₂.cons (himp a b (List.mem_cons_self a as) (List.mem_cons_self b bs) hR) ?_
    exact ih fun x y hx hy hr => himp x y (List.mem_cons_of_mem a hx) (List.mem_cons_of_mem b hy) hr

/-- The status tracking holds reflexively with no touched ids. -/
theorem stat2_refl (ref : List RLink) (t : List Nat) : Stat2 ref t ref :=
  List.forall₂_same.mpr fun _ _ => ⟨rfl, Or.inl rfl⟩

/-- Claim C2: running `update` twice in a row with an unchanged source
document is a no-op on the second call: the link count is unchanged, no
link record is created or loses its identity (the keys are unchanged, so no
duplicates appear), every link that was active stays active, and no link is
transitioned to disconnected. -/
theorem c2_update_idempotent (src : Nat) (edges : List Edge) (st : RState) :
    (topologyUpdate src edges (topologyUpdate src edges st)).links.length =
      (topologyUpdate src edges st).links.length ∧
    keysOf (topologyUpdate src edges (topologyUpdate src edges st)).links =
      keysOf (topologyUpdate src edges st).links ∧
    List.Forall₂ (fun l2 l1 =>
        (l1.status = LinkStatus.active → l2.status = LinkStatus.active) ∧
        (l2.status = LinkStatus.disconnected → l1.status = LinkStatus.disconnected))
      (topologyUpdate src edges (topologyUpdate src edges st)).links
      (topologyUpdate src edges st).links := by
  obtain ⟨⟨δ, hδ⟩, hcov1, htch1⟩ := foldl_touch_spec src edges (st, [])
  have hst1 : topologyUpdate src edges st =
      disconnectUntouched src (edges.foldl (touchEdge src) (st, [])).2
        (edges.foldl (touchEdge src) (st, [])).1 := rfl
  have hst1k : keysOf (topologyUpdate src edges st).links =
      keysOf (edges.foldl (touchEdge src) (st, [])).1.links := by
    rw [hst1, keysOf_disconnect]
  have hcov : ∀ e ∈ edges, ∃ i,
      foundId (keysOf (topologyUpdate src edges st).links) src e.source e.target = some i := by
    intro e he
    rw [hst1k]
    exact hcov1 e he
  have htch : ∀ i ∈ (edges.foldl (touchEdge src) (st, [])).2, ∃ e ∈ edges,
      foundId (keysOf (topologyUpdate src edges st).links) src e.source e.target = some i := by
    intro i hi
    rcases htch1 i hi with hnil | h
    · exact absurd hnil (List.not_mem_nil i)
    · rw [hst1k]
      exact h
  have hact1 : ∀ y ∈ (topologyUpdate src edges st).links,
      y.topology = some src → y.status = LinkStatus.active →
      y.id ∈ (edges.foldl (touchEdge src) (st, [])).2 := by
    rw [hst1]
    exact disconnect_active_mem src _ _
  obtain ⟨rk, rsub, rcov, rstat⟩ :=
    foldl_touch_run2 src edges (topologyUpdate src edges st).links
      (topologyUpdate src edges st, []) rfl hcov
      (stat2_refl (topologyUpdate src edges st).links [])
  have ht1t2 : ∀ i ∈ (edges.foldl (touchEdge src) (st, [])).2,
      i ∈ (edges.foldl (touchEdge src) (topologyUpdate src edges st, [])).2 := by
    intro i hi
    rcases htch i hi with ⟨e, he, hf⟩
    exact rcov e he i hf
  have hst2 : topologyUpdate src edges (topologyUpdate src edges st) =
      disconnectUntouched src (edges.foldl (touchEdge src) (topologyUpdate src edges st, [])).2
        (edges.foldl (touchEdge src) (topologyUpdate src edges st, [])).1 := rfl
  have hst2k : keysOf (topologyUpdate src edges (topologyUpdate src edges st)).links =
      keysOf (topologyUpdate src edges st).links := by
    rw [hst2, keysOf_disconnect]
    exact rk
  refine ⟨?_, hst2k, ?_⟩
  · have := congrArg List.length hst2k
    simpa [keysOf] using this
  · rw [hst2]
    show List.Forall₂ _ (List.map _ (edges.foldl (touchEdge src) (topologyUpdate src edges st, [])).1.links) _
    rw [List.forall₂_map_left_iff]
    refine forall₂_imp_mem rstat ?_
    rintro x y _ hy ⟨hk, hs⟩
    have hid : x.id = y.id := congrArg RKey.id hk
    have htop : x.topology = y.topology := congrArg RKey.topology hk
    have hcFalse : ¬(x.topology = some src ∧ x.status = LinkStatus.active ∧
        x.id ∉ (edges.foldl (touchEdge src) (topologyUpdate src edges st, [])).2) := by
      rintro ⟨hsrc, hact, hnt⟩
      rcases hs with heq | ⟨_, hmem⟩
      · have hysrc : y.topology = some src := htop ▸ hsrc
        have hyact : y.status = LinkStatus.active := heq ▸ hact
        have := ht1t2 y.id (hact1 y hy hysrc hyact)
        rw [hid] at hnt
        exact hnt this
      · exact hnt hmem
    constructor
    · intro hyact
      show (if _ then _ else x).status = LinkStatus.active
      rw [if_neg hcFalse]
      rcases hs with heq | ⟨hxact, _⟩
      · rw [heq]; exact hyact
      · exact hxact
    · intro hdisc
      rw [if_neg hcFalse] at hdisc
      rcases hs with heq | ⟨hxact, _⟩
      · rw [← heq]; exact hdisc
      · rw [hxact] at hdisc; exact absurd hdisc (by simp)

/-- Shape of a successful type inference: only the `type` field changes. -/
theorem inferLinkType_shape {l l₁ : Link} (h : inferLinkType l = Except.ok l₁) :
    l₁ = { l with type := l₁.type } := by
  unfold inferLinkType at h
  split at h
  · cases h; rfl
  · split at h
    · cases h
    · split at h
      · cases h; rfl
      · split at h
        · cases h; rfl
        · cases h; rfl

/-- Shape of a successful interface refresh: only the interface fields
change. -/
theorem refreshIfaces_shape {db : Db} {l l₂ : Link} (h : refreshIfaces db l = Except.ok l₂) :
    l₂ = { l with interface_a := l₂.interface_a, interface_b := l₂.interface_b } := by
  unfold refreshIfaces at h
  split at h
  · split at h
    · cases h; rfl
    · split at h
      · cases h
      · cases h; rfl
  · split at h
    · cases h
    · split at h
      · cases h; rfl
      · split at h
        · cases h
        · cases h; rfl

/-- Shape of the first node fill: only `node_a` changes. -/
theorem fillNodeA_shape (l : Link) :
    fillNodeA l = { l with node_a := (fillNodeA l).node_a } := by
  unfold fillNodeA
  split <;> rfl

/-- Shape of the second node fill: only `node_b` changes. -/
theorem fillNodeB_shape (l : Link) :
    fillNodeB l = { l with node_b := (fillNodeB l).node_b } := by
  unfold fillNodeB
  split <;> rfl


/-- Shape of a successful layer fill: only the `layer` field changes. -/
theorem fillLayer_shape {l l₄ : Link} (h : fillLayer l = Except.ok l₄) :
    l₄ = { l with layer := l₄.layer } := by
  unfold fillLayer at h
  split at h
  · cases h; rfl
  · split at h
    · cases h
    · cases h; rfl

/-- A link with no line gets the straight path between the node points. -/
theorem drawLine_none {l l₅ : Link} (hline : l.line = none)
    (h : drawLine l = Except.ok l₅) :
    ∃ na nb, l.node_a = some na ∧ l.node_b = some nb ∧
      l₅ = { l with line := some (na.point, nb.point) } := by
  unfold drawLine at h
  rw [hline] at h
  cases hna : l.node_a with
  | none => rw [hna] at h; cases h
  | some na =>
    cases hnb : l.node_b with
    | none => rw [hna, hnb] at h; cases h
    | some nb =>
      rw [hna, hnb] at h
      cases h
      exact ⟨na, nb, rfl, rfl, rfl⟩

/-- A link with a line keeps it untouched. -/
theorem drawLine_some {l l₅ : Link} {s : Point × Point} (hline : l.line = some s)
    (h : drawLine l = Except.ok l₅) : l₅ = l := by
  unfold drawLine at h
  rw [hline] at h
  cases h
  rfl

/-- With `node_a_name` absent both names are cached from the current nodes. -/
theorem fillNames_none {l l₆ : Link} (hname : l.data.node_a_name = none)
    (h : fillNames l = Except.ok l₆) :
    ∃ na nb, l.node_a = some na ∧ l.node_b = some nb ∧
      l₆ = { l with data := { l.data with
        node_a_name := some na.name, node_b_name := some nb.name } } := by
  unfold fillNames at h
  rw [if_pos hname] at h
  cases hna : l.node_a with
  | none => rw [hna] at h; cases h
  | some na =>
    cases hnb : l.node_b with
    | none => rw [hna, hnb] at h; cases h
    | some nb =>
      rw [hna, hnb] at h
      cases h
      exact ⟨na, nb, rfl, rfl, rfl⟩

/-- With `node_a_name` present the whole data dictionary is left untouched by
the name fill, even when `node_b_name` is absent. -/
theorem fillNames_some {l l₆ : Link} (hname : l.data.node_a_name ≠ none)
    (h : fillNames l = Except.ok l₆) : l₆ = l := by
  unfold fillNames at h
  rw [if_neg hname] at h
  cases h
  rfl

/-- Shape of a successful slug fill: only the two slug keys change. -/
theorem fillSlugs_shape {l l₇ : Link} (h : fillSlugs l = Except.ok l₇) :
    l₇ = { l with data := { l.data with
      node_a_slug := l₇.data.node_a_slug, node_b_slug := l₇.data.node_b_slug } } := by
  unfold fillSlugs at h
  split at h
  · split at h
    · cases h; rfl
    · cases h
  · cases h; rfl

/-- Shape of the first MAC fill: only the `interface_a_mac` key changes. -/
theorem fillMacA_shape (l : Link) :
    fillMacA l = { l with data := { l.data with
      interface_a_mac := (fillMacA l).data.interface_a_mac } } := by
  unfold fillMacA
  split <;> rfl

/-- Shape of the second MAC fill: only the `interface_b_mac` key changes. -/
theorem fillMacB_shape (l : Link) :
    fillMacB l = { l with data := { l.data with
      interface_b_mac := (fillMacB l).data.interface_b_mac } } := by
  unfold fillMacB
  split <;> rfl

/-- Shape of a successful layer slug refresh: only the `layer_slug` key
changes. -/
theorem refreshLayerSlug_shape {l l₉ : Link} (h : refreshLayerSlug l = Except.ok l₉) :
    l₉ = { l with data := { l.data with layer_slug := l₉.data.layer_slug } } := by
  unfold refreshLayerSlug at h
  split at h
  · cases h
  · split at h
    · cases h; rfl
    · cases h; rfl

/-- Shape of persistence: only the `id` field of the link changes. -/
theorem persistLink_shape {db : Db} {l : Link} {db₂ : Db} {l₂ : Link}
    (h : persistLink db l = (db₂, l₂)) : l₂ = { l with id := l₂.id } := by
  unfold persistLink at h
  split at h
  · cases h; rfl
  · cases h; rfl

/-- A successful save decomposes into successful stages. -/
theorem save_ok_decomp {db : Db} {l : Link} {db' : Db} {l' : Link}
    (h : Link.save db l = Except.ok (db', l')) :
    ∃ l₁ l₂ l₄ l₅ l₆ l₇ l₉,
      inferLinkType l = Except.ok l₁ ∧
      refreshIfaces db l₁ = Except.ok l₂ ∧
      fillLayer (fillNodes l₂) = Except.ok l₄ ∧
      drawLine l₄ = Except.ok l₅ ∧
      fillNames l₅ = Except.ok l₆ ∧
      fillSlugs l₆ = Except.ok l₇ ∧
      refreshLayerSlug (fillMacs l₇) = Except.ok l₉ ∧
      persistLink db l₉ = (db', l') := by
  unfold Link.save at h
  obtain ⟨l₁, h₁, h⟩ := except_bind_ok.mp h
  obtain ⟨l₂, h₂, h⟩ := except_bind_ok.mp h
  obtain ⟨l₄, h₄, h⟩ := except_bind_ok.mp h
  obtain ⟨l₅, h₅, h⟩ := except_bind_ok.mp h
  obtain ⟨l₆, h₆, h⟩ := except_bind_ok.mp h
  obtain ⟨l₇, h₇, h⟩ := except_bind_ok.mp h
  obtain ⟨l₉, h₉, h⟩ := except_bind_ok.mp h
  exact ⟨l₁, l₂, l₄, l₅, l₆, l₇, l₉, h₁, h₂, h₄, h₅, h₆, h₇, h₉, Except.ok.inj h⟩

/-- Uniform shape of a successful line draw: only `line` changes. -/
theorem drawLine_shape {l l₅ : Link} (h : drawLine l = Except.ok l₅) :
    l₅ = { l with line := l₅.line } := by
  unfold drawLine at h
  split at h
  · cases h; rfl
  · split at h
    · cases h; rfl
    · cases h

/-- Uniform shape of a successful name fill: only `data` changes. -/
theorem fillNames_shape {l l₆ : Link} (h : fillNames l = Except.ok l₆) :
    l₆ = { l with data := l₆.data } := by
  by_cases hn : l.data.node_a_name = none
  · obtain ⟨na, nb, _, _, rfl⟩ := fillNames_none hn h
    rfl
  · rw [fillNames_some hn h]

/-- Claim C8: the line geometry is computed at most once and never
recomputed: a link saved with `line` null gets the two point path between
the (derived) nodes of the link; a link saved with `line` already set keeps
it unchanged. -/
theorem c8_line_computed_once (db : Db) (l : Link) (db' : Db) (l' : Link)
    (h : Link.save db l = Except.ok (db', l')) :
    (l.line = none → ∃ na nb, l'.node_a = some na ∧ l'.node_b = some nb ∧
      l'.line = some (na.point, nb.point)) ∧
    (∀ s, l.line = some s → l'.line = some s) := by
  obtain ⟨l₁, l₂, l₄, l₅, l₆, l₇, l₉, h₁, h₂, h₄, h₅, h₆, h₇, h₉, hp⟩ := save_ok_decomp h
  have e₁ : l₁.line = l.line := by rw [inferLinkType_shape h₁]
  have e₂ : l₂.line = l₁.line := by rw [refreshIfaces_shape h₂]
  have e₃ : (fillNodes l₂).line = l₂.line := by
    show (fillNodeB (fillNodeA l₂)).line = _
    rw [fillNodeB_shape (fillNodeA l₂)]
    rw [fillNodeA_shape l₂]
  have e₄ : l₄.line = l.line := by
    rw [fillLayer_shape h₄, e₃, e₂, e₁]
  have f₆line : l₆.line = l₅.line := by rw [fillNames_shape h₆]
  have f₇line : l₇.line = l₆.line := by rw [fillSlugs_shape h₇]
  have f₈line : (fillMacs l₇).line = l₇.line := by
    show (fillMacB (fillMacA l₇)).line = _
    rw [fillMacB_shape (fillMacA l₇)]
    rw [fillMacA_shape l₇]
  have f₉line : l₉.line = l₅.line := by
    rw [refreshLayerSlug_shape h₉, f₈line, f₇line, f₆line]
  have fpline : l'.line = l₅.line := by
    rw [persistLink_shape hp, f₉line]
  have f₆na : l₆.node_a = l₅.node_a := by rw [fillNames_shape h₆]
  have f₇na : l₇.node_a = l₆.node_a := by rw [fillSlugs_shape h₇]
  have f₈na : (fillMacs l₇).node_a = l₇.node_a := by
    show (fillMacB (fillMacA l₇)).node_a = _
    rw [fillMacB_shape (fillMacA l₇)]
    rw [fillMacA_shape l₇]
  have fpna : l'.node_a = l₅.node_a := by
    rw [persistLink_shape hp, refreshLayerSlug_shape h₉, f₈na, f₇na, f₆na]
  have f₆nb : l₆.node_b = l₅.node_b := by rw [fillNames_shape h₆]
  have f₇nb : l₇.node_b = l₆.node_b := by rw [fillSlugs_shape h₇]
  have f₈nb : (fillMacs l₇).node_b = l₇.node_b := by
    show (fillMacB (fillMacA l₇)).node_b = _
    rw [fillMacB_shape (fillMacA l₇)]
    rw [fillMacA_shape l₇]
  have fpnb : l'.node_b = l₅.node_b := by
    rw [persistLink_shape hp, refreshLayerSlug_shape h₉, f₈nb, f₇nb, f₆nb]
  constructor
  · intro hnone
    obtain ⟨na, nb, hna, hnb, rfl⟩ := drawLine_none (by rw [e₄]; exact hnone) h₅
    exact ⟨na, nb, by rw [fpna]; exact hna, by rw [fpnb]; exact hnb, by rw [fpline]⟩
  · intro s hs
    have := drawLine_some (by rw [e₄]; exact hs) h₅
    rw [fpline, this, e₄]
    exact hs

/-- Claim C9: the cached node names are filled together under a single
asymmetric check on `node_a_name`: when the key is absent at save time both
names are cached from the current nodes, and when it is present neither name
key is touched, even if `node_b_name` alone is absent or stale. -/
theorem c9_names_filled_together (db : Db) (l : Link) (db' : Db) (l' : Link)
    (h : Link.save db l = Except.ok (db', l')) :
    (l.data.node_a_name = none → ∃ na nb, l'.node_a = some na ∧ l'.node_b = some nb ∧
      l'.data.node_a_name = some na.name ∧ l'.data.node_b_name = some nb.name) ∧
    (l.data.node_a_name ≠ none → l'.data.node_a_name = l.data.node_a_name ∧
      l'.data.node_b_name = l.data.node_b_name) := by
  obtain ⟨l₁, l₂, l₄, l₅, l₆, l₇, l₉, h₁, h₂, h₄, h₅, h₆, h₇, h₉, hp⟩ := save_ok_decomp h
  have d₁ : l₁.data = l.data := by rw [inferLinkType_shape h₁]
  have d₂ : l₂.data = l₁.data := by rw [refreshIfaces_shape h₂]
  have d₃ : (fillNodes l₂).data = l₂.data := by
    show (fillNodeB (fillNodeA l₂)).data = _
    rw [fillNodeB_shape (fillNodeA l₂)]
    rw [fillNodeA_shape l₂]
  have d₅ : l₅.data = l.data := by
    rw [drawLine_shape h₅, fillLayer_shape h₄, d₃, d₂, d₁]
  have g₇a : l₇.data.node_a_name = l₆.data.node_a_name := by rw [fillSlugs_shape h₇]
  have g₈a : (fillMacs l₇).data.node_a_name = l₇.data.node_a_name := by
    show (fillMacB (fillMacA l₇)).data.node_a_name = _
    rw [fillMacB_shape (fillMacA l₇)]
    rw [fillMacA_shape l₇]
  have gpa : l'.data.node_a_name = l₆.data.node_a_name := by
    rw [persistLink_shape hp, refreshLayerSlug_shape h₉, g₈a, g₇a]
  have g₇b : l₇.data.node_b_name = l₆.data.node_b_name := by rw [fillSlugs_shape h₇]
  have g₈b : (fillMacs l₇).data.node_b_name = l₇.data.node_b_name := by
    show (fillMacB (fillMacA l₇)).data.node_b_name = _
    rw [fillMacB_shape (fillMacA l₇)]
    rw [fillMacA_shape l₇]
  have gpb : l'.data.node_b_name = l₆.data.node_b_name := by
    rw [persistLink_shape hp, refreshLayerSlug_shape h₉, g₈b, g₇b]
  have g₇na : l₇.node_a = l₆.node_a := by rw [fillSlugs_shape h₇]
  have g₈na : (fillMacs l₇).node_a = l₇.node_a := by
    show (fillMacB (fillMacA l₇)).node_a = _
    rw [fillMacB_shape (fillMacA l₇)]
    rw [fillMacA_shape l₇]
  have gpna : l'.node_a = l₆.node_a := by
    rw [persistLink_shape hp, refreshLayerSlug_shape h₉, g₈na, g₇na]
  have g₇nb : l₇.node_b = l₆.node_b := by rw [fillSlugs_shape h₇]
  have g₈nb : (fillMacs l₇).node_b = l₇.node_b := by
    show (fillMacB (fillMacA l₇)).node_b = _
    rw [fillMacB_shape (fillMacA l₇)]
    rw [fillMacA_shape l₇]
  have gpnb : l'.node_b = l₆.node_b := by
    rw [persistLink_shape hp, refreshLayerSlug_shape h₉, g₈nb, g₇nb]
  constructor
  · intro hnone
    obtain ⟨na, nb, hna, hnb, rfl⟩ := fillNames_none (by rw [d₅]; exact hnone) h₆
    refine ⟨na, nb, ?_, ?_, ?_, ?_⟩
    · rw [gpna]; exact hna
    · rw [gpnb]; exact hnb
    · rw [gpa]
    · rw [gpb]
  · intro hsome
    have h65 := fillNames_some (by rw [d₅]; exact hsome) h₆
    constructor
    · rw [gpa, h65, d₅]
    · rw [gpb, h65, d₅]

/-- Claim C10: with `type` unset and `interface_a` null, `Link.save` raises
`AttributeError` while inferring the type, whatever the database contains. -/
theorem c10_save_partial_on_typeless (db : Db) (l : Link)
    (htype : l.type = none) (hia : l.interface_a = none) :
    Link.save db l = Except.error (PyError.attributeError "NoneType object has no attribute type") := by
  have hstage : inferLinkType l =
      Except.error (PyError.attributeError "NoneType object has no attribute type") := by
    unfold inferLinkType
    rw [htype, hia]
  unfold Link.save
  rw [hstage]
  rfl

/-- Test whether a result is a Django `ValidationError`. -/
def isValidationError {α : Type} : Except PyError α → Bool
  | Except.error (PyError.validationError _) => true
  | _ => false

/-- A bind is free of validation errors when both stages are. -/
theorem isValidationError_bind {α β : Type} {x : Except PyError α} {f : α → Except PyError β}
    (hx : isValidationError x = false) (hf : ∀ a, isValidationError (f a) = false) :
    isValidationError (x >>= f) = false := by
  cases x with
  | ok a => exact hf a
  | error e => cases e <;> exact hx

/-- Type inference never raises a validation error. -/
theorem inferLinkType_no_validation (l : Link) : isValidationError (inferLinkType l) = false := by
  unfold inferLinkType
  split
  · rfl
  · split
    · rfl
    · split
      · rfl
      · split <;> rfl

/-- Interface refresh never raises a validation error. -/
theorem refreshIfaces_no_validation (db : Db) (l : Link) :
    isValidationError (refreshIfaces db l) = false := by
  unfold refreshIfaces
  split
  · split
    · rfl
    · split <;> rfl
  · split
    · rfl
    · split
      · rfl
      · split <;> rfl

/-- Layer fill never raises a validation error. -/
theorem fillLayer_no_validation (l : Link) : isValidationError (fillLayer l) = false := by
  unfold fillLayer
  split
  · rfl
  · split <;> rfl

/-- Line drawing never raises a validation error. -/
theorem drawLine_no_validation (l : Link) : isValidationError (drawLine l) = false := by
  unfold drawLine
  split
  · rfl
  · split <;> rfl

/-- Name fill never raises a validation error. -/
theorem fillNames_no_validation (l : Link) : isValidationError (fillNames l) = false := by
  unfold fillNames
  split
  · split <;> rfl
  · rfl

/-- Slug fill never raises a validation error. -/
theorem fillSlugs_no_validation (l : Link) : isValidationError (fillSlugs l) = false := by
  unfold fillSlugs
  split
  · split <;> rfl
  · rfl

/-- Layer slug refresh never raises a validation error. -/
theorem refreshLayerSlug_no_validation (l : Link) :
    isValidationError (refreshLayerSlug l) = false := by
  unfold refreshLayerSlug
  split
  · rfl
  · split <;> rfl

/-- `Link.save` performs no validation whatsoever: no rule of `Link.clean`
is checked, and no validation error can come out of it. -/
theorem save_no_validation (db : Db) (l : Link) :
    isValidationError (Link.save db l) = false := by
  unfold Link.save
  refine isValidationError_bind (inferLinkType_no_validation l) fun l₁ => ?_
  refine isValidationError_bind (refreshIfaces_no_validation db l₁) fun l₂ => ?_
  refine isValidationError_bind (fillLayer_no_validation (fillNodes l₂)) fun l₄ => ?_
  refine isValidationError_bind (drawLine_no_validation l₄) fun l₅ => ?_
  refine isValidationError_bind (fillNames_no_validation l₅) fun l₆ => ?_
  refine isValidationError_bind (fillSlugs_no_validation l₆) fun l₇ => ?_
  refine isValidationError_bind (refreshLayerSlug_no_validation (fillMacs l₇)) fun l₉ => ?_
  rfl

/-- Claim C6: `Link.clean` raises a validation error if and only if one of
the four spec rules is violated: (1) status is not planned and an interface
is null or the two interfaces have the same identity (primary key); (2)
status is planned and a node is null; (3) the type is not radio yet dbm or
noise is set; (4) both interfaces are present with differing physical
types.  Otherwise validation succeeds. -/
theorem c6_clean_validation_iff (l : Link) :
    (∃ m, Link.clean l = Except.error (PyError.validationError m)) ↔
    ((l.status ≠ LinkStatus.planned ∧ (l.interface_a = none ∨ l.interface_b = none ∨
        ∃ a b, l.interface_a = some a ∧ l.interface_b = some b ∧ a.id = b.id)) ∨
      (l.status = LinkStatus.planned ∧ (l.node_a = none ∨ l.node_b = none)) ∨
      (l.type ≠ some LinkType.radio ∧ (l.dbm ≠ none ∨ l.noise ≠ none)) ∨
      (∃ a b, l.interface_a = some a ∧ l.interface_b = some b ∧ a.type ≠ b.type)) := by
  rcases hia : l.interface_a with _ | a <;> rcases hib : l.interface_b with _ | b <;>
    simp only [Link.clean, hia, hib] <;> split_ifs with h1 h2 h3 <;>
    simp_all <;> tauto

/-- The pair-matching predicate is symmetric in the two interfaces. -/
theorem linkMatches_swap (ia ib : Interface) (x : Link) :
    linkMatches ib ia x = linkMatches ia ib x := by
  unfold linkMatches
  exact decide_eq_decide.mpr or_comm

/-- On a two-element tuple, `find_from_tuple` is resolution followed by the
pair lookup. -/
theorem find_from_tuple_pair (db : Db) (a b : String) :
    Link.find_from_tuple db [a, b] =
      (match resolveTuple db a b with
      | Except.error e => Except.error e
      | Except.ok (ia, ib) =>
        match db.links.find? (linkMatches ia ib) with
        | some l => Except.ok l
        | none => Except.error (PyError.linkNotFound "Link matching query does not exist" ia ib)) := rfl

/-- Address resolution is symmetric: resolving the swapped pair yields the
swapped interfaces. -/
theorem resolveTuple_swap {db : Db} {a b : String} {ia ib : Interface}
    (h : resolveTuple db a b = Except.ok (ia, ib)) :
    resolveTuple db b a = Except.ok (ib, ia) := by
  unfold resolveTuple at h ⊢
  have hip : ((valid_ipv4 b && valid_ipv4 a) || (valid_ipv6 b && valid_ipv6 a)) =
      ((valid_ipv4 a && valid_ipv4 b) || (valid_ipv6 a && valid_ipv6 b)) := by
    rw [Bool.and_comm, Bool.and_comm (valid_ipv6 b)]
  have hmac : (valid_mac b && valid_mac a) = (valid_mac a && valid_mac b) := Bool.and_comm _ _
  rw [hip, hmac]
  split at h
  · rename_i hc
    rw [if_pos hc]
    cases hra : db.ips.find? (fun r => decide (r.address = a)) with
    | none => rw [hra] at h; cases h
    | some ra =>
      cases hrb : db.ips.find? (fun r => decide (r.address = b)) with
      | none => rw [hra, hrb] at h; cases h
      | some rb =>
        rw [hra, hrb] at h
        cases h
        rfl
  · rename_i hc
    rw [if_neg hc]
    split at h
    · rename_i hm
      rw [if_pos hm]
      cases hxa : db.interfaces.find? (fun x => decide (x.mac = a)) with
      | none => rw [hxa] at h; cases h
      | some xa =>
        cases hxb : db.interfaces.find? (fun x => decide (x.mac = b)) with
        | none => rw [hxa, hxb] at h; cases h
        | some xb =>
          rw [hxa, hxb] at h
          cases h
          rfl
    · cases h

/-- Claim C5: `find_from_tuple` is orientation-insensitive: whenever the
pair `[a, b]` yields a link, the reversed pair `[b, a]` yields the very
same link, because the lookup tries both orientations. -/
theorem c5_find_from_tuple_orientation (db : Db) (a b : String) (l : Link)
    (h : Link.find_from_tuple db [a, b] = Except.ok l) :
    Link.find_from_tuple db [b, a] = Except.ok l := by
  rw [find_from_tuple_pair] at h
  rw [find_from_tuple_pair]
  cases hr : resolveTuple db a b with
  | error e => rw [hr] at h; cases h
  | ok p =>
    obtain ⟨ia, ib⟩ := p
    simp only [hr] at h
    simp only [resolveTuple_swap hr]
    rw [find?_congr_pred (linkMatches_swap ia ib) db.links]
    cases hf : db.links.find? (linkMatches ia ib) with
    | none => rw [hf] at h; cases h
    | some l0 => rw [hf] at h; cases h; rfl

/-- Address resolution never produces a `LinkNotFound` error. -/
theorem resolveTuple_no_linkNotFound (db : Db) (a b : String) (m : String) (ia ib : Interface) :
    resolveTuple db a b ≠ Except.error (PyError.linkNotFound m ia ib) := by
  unfold resolveTuple
  split
  · split
    · simp
    · split <;> simp
  · split
    · split
      · simp
      · split <;> simp
    · simp

/-- Inversion of a `LinkNotFound` failure: both addresses resolved to the
carried interfaces and no stored link matches the pair. -/
theorem find_from_tuple_notFound_inv {db : Db} {a b m : String} {ia ib : Interface}
    (h : Link.find_from_tuple db [a, b] = Except.error (PyError.linkNotFound m ia ib)) :
    resolveTuple db a b = Except.ok (ia, ib) ∧ db.links.find? (linkMatches ia ib) = none := by
  rw [find_from_tuple_pair] at h
  cases hr : resolveTuple db a b with
  | error e =>
    rw [hr] at h
    cases h
    exact absurd hr (resolveTuple_no_linkNotFound db a b m ia ib)
  | ok p =>
    obtain ⟨x, y⟩ := p
    simp only [hr] at h
    cases hf : db.links.find? (linkMatches x y) with
    | some l0 => rw [hf] at h; cases h
    | none =>
      rw [hf] at h
      cases h
      exact ⟨rfl, hf⟩

/-- The link `find_or_create` builds and saves on a lookup miss for a pair
resolving to `ia` and `ib`, as it comes out of `Link.save` on a database
whose interface table contains the two interfaces. -/
def createdLink (db : Db) (ia ib : Interface) : Link :=
  { id := some db.nextId, type := some LinkType.radio, interface_a := some ia,
    interface_b := some ib, topology := none, node_a := some ia.node, node_b := some ib.node,
    layer := some ia.node.layer, line := some (ia.node.point, ib.node.point),
    status := LinkStatus.active, metric_value := none, dbm := none, noise := none,
    data :=
      { node_a_name := some ia.node.name, node_b_name := some ib.node.name,
        node_a_slug := some ia.node.slug, node_b_slug := some ib.node.slug,
        interface_a_mac := some ia.mac, interface_b_mac := some ib.mac,
        layer_slug := some ia.node.layer.slug } }

/-- Claim C1 (amended): when a pair of addresses resolves to two distinct
interfaces of the same physical type and no stored link matches the pair,
`find_or_create` called twice returns the same link both times, the link
count grows by exactly one on the first call and by zero on the second, and
the created link carries the resolved interfaces with status active. -/
theorem c1_find_or_create_idempotent (db : Db) (a b : String) (m : String) (ia ib : Interface)
    (hnf : Link.find_from_tuple db [a, b] = Except.error (PyError.linkNotFound m ia ib))
    (hga : db.interfaces.find? (fun x => decide (x.id = ia.id)) = some ia)
    (hgb : db.interfaces.find? (fun x => decide (x.id = ib.id)) = some ib)
    (hne : ia.id ≠ ib.id)
    (hty : ia.type = ib.type) :
    ∃ db' l,
      Link.find_or_create db [a, b] = Except.ok (db', l) ∧
      l.interface_a = some ia ∧ l.interface_b = some ib ∧ l.status = LinkStatus.active ∧
      db'.links.length = db.links.length + 1 ∧
      Link.find_or_create db' [a, b] = Except.ok (db', l) := by
  obtain ⟨hres, hnone⟩ := find_from_tuple_notFound_inv hnf
  have hobj : ia ≠ ib := fun hh => hne (congrArg Interface.id hh)
  have hclean : Link.clean
      { interface_a := some ia, interface_b := some ib, status := LinkStatus.active } =
      Except.ok () := by
    simp [Link.clean, hne, hobj, hty]
  have hsave : Link.save db
      { interface_a := some ia, interface_b := some ib, status := LinkStatus.active } =
      Except.ok
      ({ db with links := db.links ++ [createdLink db ia ib], nextId := db.nextId + 1 },
        createdLink db ia ib) := by
    unfold Link.save inferLinkType refreshIfaces fillNodes fillNodeA fillNodeB fillLayer
      drawLine fillNames fillSlugs fillMacs fillMacA fillMacB refreshLayerSlug persistLink
    simp [hga, hgb, createdLink, Bind.bind, Except.bind]
  have hcall1 : Link.find_or_create db [a, b] = Except.ok
      ({ db with links := db.links ++ [createdLink db ia ib], nextId := db.nextId + 1 },
        createdLink db ia ib) := by
    unfold Link.find_or_create
    simp only [hnf, hclean]
    exact hsave
  have hres2 : resolveTuple
      { db with links := db.links ++ [createdLink db ia ib], nextId := db.nextId + 1 } a b =
      Except.ok (ia, ib) := hres
  have hmatch : linkMatches ia ib (createdLink db ia ib) = true := by
    simp [linkMatches, createdLink]
  have hfind2 :
      ({ db with links := db.links ++ [createdLink db ia ib], nextId := db.nextId + 1 } :
        Db).links.find? (linkMatches ia ib) = some (createdLink db ia ib) := by
    show (db.links ++ [createdLink db ia ib]).find? (linkMatches ia ib) = _
    rw [find?_append_none hnone]
    simp [List.find?, hmatch]
  have hfft2 : Link.find_from_tuple
      { db with links := db.links ++ [createdLink db ia ib], nextId := db.nextId + 1 }
      [a, b] = Except.ok (createdLink db ia ib) := by
    rw [find_from_tuple_pair]
    simp only [hres2, hfind2]
  have hcall2 : Link.find_or_create
      { db with links := db.links ++ [createdLink db ia ib], nextId := db.nextId + 1 }
      [a, b] = Except.ok
      ({ db with links := db.links ++ [createdLink db ia ib], nextId := db.nextId + 1 },
        createdLink db ia ib) := by
    unfold Link.find_or_create
    simp only [hfft2]
  exact ⟨_, _, hcall1, rfl, rfl, rfl, by simp, hcall2⟩

/-- `Link.save` never touches the topology source of the link. -/
theorem save_topology {db : Db} {l : Link} {db' : Db} {l' : Link}
    (h : Link.save db l = Except.ok (db', l')) : l'.topology = l.topology := by
  obtain ⟨l₁, l₂, l₄, l₅, l₆, l₇, l₉, h₁, h₂, h₄, h₅, h₆, h₇, h₉, hp⟩ := save_ok_decomp h
  have e₁ : l₁.topology = l.topology := by rw [inferLinkType_shape h₁]
  have e₂ : l₂.topology = l₁.topology := by rw [refreshIfaces_shape h₂]
  have e₃ : (fillNodes l₂).topology = l₂.topology := by
    show (fillNodeB (fillNodeA l₂)).topology = _
    rw [fillNodeB_shape (fillNodeA l₂)]
    rw [fillNodeA_shape l₂]
  have e₈ : (fillMacs l₇).topology = l₇.topology := by
    show (fillMacB (fillMacA l₇)).topology = _
    rw [fillMacB_shape (fillMacA l₇)]
    rw [fillMacA_shape l₇]
  rw [persistLink_shape hp, refreshLayerSlug_shape h₉, e₈, fillSlugs_shape h₇,
    fillNames_shape h₆, drawLine_shape h₅, fillLayer_shape h₄, e₃, e₂, e₁]

/-- Claim C4 (amended): the endpoint-pair lookup is not scoped to a topology
source: `find_from_tuple` reads only the interface pair of each stored link,
so its result is invariant under rewriting every stored link topology (links
of any or null topology source are returned just the same), and the link
created by `find_or_create` on a lookup miss has no topology source set. -/
theorem c4_lookup_unscoped :
    (∀ (db : Db) (pair : List String) (t : Option Nat),
      Link.find_from_tuple
          { db with links := db.links.map (fun x => { x with topology := t }) } pair =
        (Link.find_from_tuple db pair).map (fun x => { x with topology := t })) ∧
    (∀ (db : Db) (pair : List String) (m : String) (ia ib : Interface) (db' : Db) (l : Link),
      Link.find_from_tuple db pair = Except.error (PyError.linkNotFound m ia ib) →
      Link.find_or_create db pair = Except.ok (db', l) → l.topology = none) := by
  constructor
  · intro db pair t
    match pair with
    | [] => rfl
    | [_] => rfl
    | a :: b :: rest =>
      show (match resolveTuple _ a b with
        | Except.error e => Except.error e
        | Except.ok (ia, ib) => _) = Except.map _ (match resolveTuple db a b with
        | Except.error e => Except.error e
        | Except.ok (ia, ib) => _)
      have hres : resolveTuple
          { db with links := db.links.map (fun x => { x with topology := t }) } a b =
          resolveTuple db a b := rfl
      rw [hres]
      cases hr : resolveTuple db a b with
      | error e => rfl
      | ok p =>
        obtain ⟨ia, ib⟩ := p
        show (match ({ db with links := db.links.map (fun x => { x with topology := t }) } :
            Db).links.find? (linkMatches ia ib) with
          | some l => Except.ok l
          | none => Except.error (PyError.linkNotFound "Link matching query does not exist" ia ib)) = _
        show (match (db.links.map (fun x => { x with topology := t })).find?
            (linkMatches ia ib) with
          | some l => Except.ok l
          | none => Except.error (PyError.linkNotFound "Link matching query does not exist" ia ib)) = _
        rw [List.find?_map]
        have hcomp : db.links.find?
            (linkMatches ia ib ∘ (fun x => { x with topology := t })) =
            db.links.find? (linkMatches ia ib) :=
          find?_congr_pred (fun x => rfl) db.links
        rw [hcomp]
        show _ = Except.map (fun x => { x with topology := t })
          (match db.links.find? (linkMatches ia ib) with
          | some l => Except.ok l
          | none => Except.error (PyError.linkNotFound "Link matching query does not exist" ia ib))
        cases hf : db.links.find? (linkMatches ia ib) with
        | none => rfl
        | some l0 => rfl
  · intro db pair m ia ib db' l hnf hok
    unfold Link.find_or_create at hok
    simp only [hnf] at hok
    cases hc : Link.clean
        { interface_a := some ia, interface_b := some ib, status := LinkStatus.active } with
    | error e => rw [hc] at hok; cases hok
    | ok u =>
      rw [hc] at hok
      exact save_topology hok

/-- Claim C7 (amended): `find_from_tuple` classifies its failures by stage:
a pair that is not both-IPv4, both-IPv6 or both-MAC raises `ValueError`
without consulting the store; a well-formed pair with an unresolved address
raises `LinkDataNotFound` wrapping the constant Django does-not-exist
message (the unresolved address itself is not carried); a resolved pair with
no matching link raises `LinkNotFound` carrying the resolved interface
pair. -/
theorem c7_find_from_tuple_failures :
    (∀ (db : Db) (a b : String),
      ((valid_ipv4 a && valid_ipv4 b) || (valid_ipv6 a && valid_ipv6 b)) = false →
      (valid_mac a && valid_mac b) = false →
      Link.find_from_tuple db [a, b] =
        Except.error (PyError.valueError "Expecting valid ipv4, ipv6 or mac address")) ∧
    (∀ (db : Db) (a b : String),
      ((valid_ipv4 a && valid_ipv4 b) || (valid_ipv6 a && valid_ipv6 b)) = true →
      db.ips.find? (fun r => decide (r.address = a)) = none →
      Link.find_from_tuple db [a, b] =
        Except.error (PyError.linkDataNotFound "Ip matching query does not exist.")) ∧
    (∀ (db : Db) (a b : String) (ra : Ip),
      ((valid_ipv4 a && valid_ipv4 b) || (valid_ipv6 a && valid_ipv6 b)) = true →
      db.ips.find? (fun r => decide (r.address = a)) = some ra →
      db.ips.find? (fun r => decide (r.address = b)) = none →
      Link.find_from_tuple db [a, b] =
        Except.error (PyError.linkDataNotFound "Ip matching query does not exist.")) ∧
    (∀ (db : Db) (a b : String),
      ((valid_ipv4 a && valid_ipv4 b) || (valid_ipv6 a && valid_ipv6 b)) = false →
      (valid_mac a && valid_mac b) = true →
      db.interfaces.find? (fun x => decide (x.mac = a)) = none →
      Link.find_from_tuple db [a, b] =
        Except.error (PyError.linkDataNotFound "Interface matching query does not exist.")) ∧
    (∀ (db : Db) (a b : String) (xa : Interface),
      ((valid_ipv4 a && valid_ipv4 b) || (valid_ipv6 a && valid_ipv6 b)) = false →
      (valid_mac a && valid_mac b) = true →
      db.interfaces.find? (fun x => decide (x.mac = a)) = some xa →
      db.interfaces.find? (fun x => decide (x.mac = b)) = none →
      Link.find_from_tuple db [a, b] =
        Except.error (PyError.linkDataNotFound "Interface matching query does not exist.")) ∧
    (∀ (db : Db) (a b : String) (ia ib : Interface),
      resolveTuple db a b = Except.ok (ia, ib) →
      db.links.find? (linkMatches ia ib) = none →
      Link.find_from_tuple db [a, b] =
        Except.error (PyError.linkNotFound "Link matching query does not exist" ia ib)) := by
  refine ⟨?_, ?_, ?_, ?_, ?_, ?_⟩
  · intro db a b h1 h2
    rw [find_from_tuple_pair]
    unfold resolveTuple
    simp [h1, h2]
  · intro db a b h1 hfa
    rw [find_from_tuple_pair]
    unfold resolveTuple
    simp [h1, hfa]
  · intro db a b ra h1 hfa hfb
    rw [find_from_tuple_pair]
    unfold resolveTuple
    simp [h1, hfa, hfb]
  · intro db a b h1 h2 hfa
    rw [find_from_tuple_pair]
    unfold resolveTuple
    simp [h1, h2, hfa]
  · intro db a b xa h1 h2 hfa hfb
    rw [find_from_tuple_pair]
    unfold resolveTuple
    simp [h1, h2, hfa, hfb]
  · intro db a b ia ib hres hnone
    rw [find_from_tuple_pair]
    simp only [hres, hnone]

/-- Sample layer used by the concrete scenarios below. -/
def sampleLayer : Layer := ⟨1, "rome"⟩

/-- Sample node owning the first interface. -/
def sampleNodeA : Node := ⟨1, "Fusolab", "fusolab", ⟨0, 0⟩, sampleLayer⟩

/-- Sample node owning the second interface. -/
def sampleNodeB : Node := ⟨2, "Pisano", "pisano", ⟨1, 1⟩, sampleLayer⟩

/-- Sample wireless interface on the first node. -/
def sampleIfaceA : Interface := ⟨1, sampleNodeA, InterfaceType.wireless, "00:27:22:00:50:71"⟩

/-- Sample wireless interface on the second node. -/
def sampleIfaceB : Interface := ⟨2, sampleNodeB, InterfaceType.wireless, "00:27:22:00:50:72"⟩

/-- A database with two resolvable addresses and no stored link. -/
def emptyDb : Db :=
  ⟨[sampleIfaceA, sampleIfaceB], [⟨"1.2.3.4", sampleIfaceA⟩, ⟨"5.6.7.8", sampleIfaceB⟩], [], 1⟩

/-- A stored link between the two sample interfaces belonging to topology
source 2. -/
def storedLink : Link :=
  { id := some 1, interface_a := some sampleIfaceA, interface_b := some sampleIfaceB,
    topology := some 2, status := LinkStatus.active }

/-- A database whose link table already holds `storedLink`. -/
def linkedDb : Db :=
  ⟨[sampleIfaceA, sampleIfaceB], [⟨"1.2.3.4", sampleIfaceA⟩, ⟨"5.6.7.8", sampleIfaceB⟩],
    [storedLink], 2⟩

/-- A link violating validation rule 3 of the spec: type ethernet with dbm
and noise set. -/
def radioRuleBreaker : Link :=
  { type := some LinkType.ethernet, interface_a := some sampleIfaceA,
    interface_b := some sampleIfaceB, status := LinkStatus.active,
    dbm := some (-70), noise := some (-90) }

/-- Claim C3 (amended): `Link.save` performs no validation at all: no call
of it can fail with a validation error, and a link breaking a section 4.4
rule is persisted by `save` untouched; validation is the separate
`full_clean`/`clean` step that callers such as `find_or_create` must invoke
before saving. -/
theorem c3_save_does_not_validate :
    (∀ (db : Db) (l : Link), isValidationError (Link.save db l) = false) ∧
    (∃ m, Link.clean radioRuleBreaker = Except.error (PyError.validationError m)) ∧
    (Link.save emptyDb radioRuleBreaker).isOk = true :=
  ⟨save_no_validation,
    ⟨"Only links of type radio can contain dbm and noise information", rfl⟩, rfl⟩

/-- Counterexample to claim C3 as stated: `radioRuleBreaker` violates rule 3
(dbm and noise on a non radio link), yet `save` succeeds and persists the
record (the link table grows to one row). -/
theorem c3_counterexample :
    (∃ m, Link.clean radioRuleBreaker = Except.error (PyError.validationError m)) ∧
    (Link.save emptyDb radioRuleBreaker).isOk = true ∧
    (Except.toOption (Link.save emptyDb radioRuleBreaker)).map
      (fun r => r.1.links.length) = some 1 :=
  ⟨⟨"Only links of type radio can contain dbm and noise information", rfl⟩, rfl, rfl⟩

/-- Counterexample to claim C1 as stated: with a matching link already in
the store, the first `find_or_create` call returns it and the link count
grows by zero, not one; and a pair of addresses that both resolve (to the
same interface) makes `find_or_create` fail with a validation error rather
than return a link. -/
theorem c1_counterexample :
    Link.find_or_create linkedDb ["1.2.3.4", "5.6.7.8"] = Except.ok (linkedDb, storedLink) ∧
    linkedDb.links.length = 1 ∧
    (Link.find_or_create emptyDb ["1.2.3.4", "1.2.3.4"]).isOk = false :=
  ⟨rfl, rfl, rfl⟩

/-- Witness for claim C1 at a concrete store: the two sample addresses
resolve to the two distinct wireless interfaces and no link exists yet. -/
theorem c1_witness :
    ∃ db' l,
      Link.find_or_create emptyDb ["1.2.3.4", "5.6.7.8"] = Except.ok (db', l) ∧
      l.interface_a = some sampleIfaceA ∧ l.interface_b = some sampleIfaceB ∧
      l.status = LinkStatus.active ∧
      db'.links.length = emptyDb.links.length + 1 ∧
      Link.find_or_create db' ["1.2.3.4", "5.6.7.8"] = Except.ok (db', l) :=
  c1_find_or_create_idempotent emptyDb "1.2.3.4" "5.6.7.8"
    "Link matching query does not exist" sampleIfaceA sampleIfaceB
    rfl rfl rfl (by decide) rfl

/-- Counterexample to claim C4 as stated: the stored link belongs to
topology source 2 (not to source 1, and reconciliation of source 1 would
use this very lookup), yet the endpoint-pair lookup and `find_or_create`
return it: the lookup is not scoped to any topology source. -/
theorem c4_counterexample :
    Link.find_from_tuple linkedDb ["1.2.3.4", "5.6.7.8"] = Except.ok storedLink ∧
    Link.find_or_create linkedDb ["1.2.3.4", "5.6.7.8"] = Except.ok (linkedDb, storedLink) ∧
    storedLink.topology = some 2 ∧ storedLink.topology ≠ some 1 :=
  ⟨rfl, rfl, rfl, by decide⟩

/-- Helper extracting the pair returned by a successful `find_or_create`. -/
def focResult (db : Db) (pair : List String) : Db × Link :=
  match Link.find_or_create db pair with
  | Except.ok r => r
  | Except.error _ => (db, {})

/-- Witness for claim C4 at a concrete store: the link created on the empty
database has no topology source. -/
theorem c4_witness :
    (focResult emptyDb ["1.2.3.4", "5.6.7.8"]).2.topology = none :=
  c4_lookup_unscoped.2 emptyDb ["1.2.3.4", "5.6.7.8"]
    "Link matching query does not exist" sampleIfaceA sampleIfaceB
    (focResult emptyDb ["1.2.3.4", "5.6.7.8"]).1
    (focResult emptyDb ["1.2.3.4", "5.6.7.8"]).2 rfl rfl

/-- Witness for claim C5 at a concrete store: the stored link is found under
both orientations of the address pair. -/
theorem c5_witness :
    Link.find_from_tuple linkedDb ["5.6.7.8", "1.2.3.4"] = Except.ok storedLink :=
  c5_find_from_tuple_orientation linkedDb "1.2.3.4" "5.6.7.8" storedLink rfl

/-- Counterexample to claim C7 as stated: two pairs whose unresolved
addresses differ produce the very same data-not-found error, so the error
cannot carry the unresolved address: it only wraps the constant Django
does-not-exist message. -/
theorem c7_counterexample :
    Link.find_from_tuple emptyDb ["1.2.3.4", "9.9.9.9"] =
      Except.error (PyError.linkDataNotFound "Ip matching query does not exist.") ∧
    Link.find_from_tuple emptyDb ["1.2.3.4", "8.8.8.8"] =
      Except.error (PyError.linkDataNotFound "Ip matching query does not exist.") ∧
    ("9.9.9.9" : String) ≠ "8.8.8.8" :=
  ⟨rfl, rfl, by decide⟩

/-- Witness for claim C7 at concrete inputs: a mixed pair raises
`ValueError`, an unresolved well-formed pair raises the wrapped
does-not-exist error, and a resolved pair with no link raises `LinkNotFound`
carrying the interface pair. -/
theorem c7_witness :
    Link.find_from_tuple emptyDb ["1.2.3.4", "00:27:22:00:50:71"] =
      Except.error (PyError.valueError "Expecting valid ipv4, ipv6 or mac address") ∧
    Link.find_from_tuple emptyDb ["9.9.9.9", "5.6.7.8"] =
      Except.error (PyError.linkDataNotFound "Ip matching query does not exist.") ∧
    Link.find_from_tuple emptyDb ["1.2.3.4", "5.6.7.8"] =
      Except.error (PyError.linkNotFound "Link matching query does not exist"
        sampleIfaceA sampleIfaceB) :=
  ⟨c7_find_from_tuple_failures.1 emptyDb "1.2.3.4" "00:27:22:00:50:71" (by decide) (by decide),
    c7_find_from_tuple_failures.2.1 emptyDb "9.9.9.9" "5.6.7.8" (by decide) rfl,
    c7_find_from_tuple_failures.2.2.2.2.2 emptyDb "1.2.3.4" "5.6.7.8"
      sampleIfaceA sampleIfaceB rfl rfl⟩

/-- Helper extracting the pair returned by a successful `Link.save`. -/
def saveResult (db : Db) (l : Link) : Db × Link :=
  match Link.save db l with
  | Except.ok r => r
  | Except.error _ => (db, l)

/-- An active radio link between the two sample interfaces, before its first
save: no line, no cached data. -/
def freshLink : Link :=
  { interface_a := some sampleIfaceA, interface_b := some sampleIfaceB,
    status := LinkStatus.active }

/-- Witness for claim C8 at a concrete store: the freshly saved link gets
the straight line between the two node points. -/
theorem c8_witness :
    freshLink.line = none ∧
    (∃ na nb, (saveResult emptyDb freshLink).2.node_a = some na ∧
      (saveResult emptyDb freshLink).2.node_b = some nb ∧
      (saveResult emptyDb freshLink).2.line = some (na.point, nb.point)) :=
  ⟨rfl, (c8_line_computed_once emptyDb freshLink
    (saveResult emptyDb freshLink).1 (saveResult emptyDb freshLink).2 rfl).1 rfl⟩

/-- Witness for claim C9 at a concrete store: the freshly saved link gets
both node names cached from the nodes. -/
theorem c9_witness :
    freshLink.data.node_a_name = none ∧
    (∃ na nb, (saveResult emptyDb freshLink).2.node_a = some na ∧
      (saveResult emptyDb freshLink).2.node_b = some nb ∧
      (saveResult emptyDb freshLink).2.data.node_a_name = some na.name ∧
      (saveResult emptyDb freshLink).2.data.node_b_name = some nb.name) :=
  ⟨rfl, (c9_names_filled_together emptyDb freshLink
    (saveResult emptyDb freshLink).1 (saveResult emptyDb freshLink).2 rfl).1 rfl⟩

/-- A planned link with both nodes set but no interfaces and no type: it
passes validation. -/
def plannedLink : Link :=
  { type := none, status := LinkStatus.planned,
    node_a := some sampleNodeA, node_b := some sampleNodeB }

/-- Witness for claim C10 at a concrete store: the planned link passes
`clean` yet `save` fails with `AttributeError`. -/
theorem c10_witness :
    Link.clean plannedLink = Except.ok () ∧
    Link.save emptyDb plannedLink =
      Except.error (PyError.attributeError "NoneType object has no attribute type") :=
  ⟨rfl, c10_save_partial_on_typeless emptyDb plannedLink rfl rfl⟩
